import Mathlib

/-
  Shallow embedding of the vx-delegate core (delegate_main.cc): tensor-spec
  construction, legality filtering, subgraph extraction, lazy graph build and
  the invoke-time control flow, together with theorems checking the design
  document's claims about them.
-/

namespace VxDelegate

/-- Host element types appearing in the delegate's switches. -/
inductive TfLiteType
  | float32
  | int32
  | uint8
  | int16
  | int8
  | bool
  | float16
  | other
  deriving DecidableEq, Repr

/-- Accelerator element types (tim::vx::DataType). -/
inductive VxDataType
  | FLOAT32
  | INT32
  | UINT8
  | INT16
  | INT8
  | FLOAT16
  deriving DecidableEq, Repr

/-- delegate_main.cc TfLiteDtypeToVsiDtype: host type to accelerator type;
the default branch logs an error and falls back to FLOAT32. -/
def TfLiteDtypeToVsiDtype : TfLiteType → VxDataType
  | TfLiteType.float32 => VxDataType.FLOAT32
  | TfLiteType.int32 => VxDataType.INT32
  | TfLiteType.uint8 => VxDataType.UINT8
  | TfLiteType.int16 => VxDataType.INT16
  | TfLiteType.int8 => VxDataType.INT8
  | TfLiteType.bool => VxDataType.INT8
  | TfLiteType.float16 => VxDataType.FLOAT16
  | TfLiteType.other => VxDataType.FLOAT32

/-- Host allocation classes; kTfLiteMmapRo marks pre-populated read-only
(compile-time constant) memory. -/
inductive TfLiteAllocationType
  | kTfLiteMemNone
  | kTfLiteMmapRo
  | kTfLiteArenaRw
  | kTfLiteArenaRwPersistent
  | kTfLiteDynamic
  deriving DecidableEq, Repr

/-- Host affine-quantization metadata (scales, zero points, channel axis). -/
structure AffineQuantization where
  scale : List Rat
  zero_point : List Int
  quantized_dimension : Int
  deriving DecidableEq, Repr

/-- Host tensor descriptor: the fields of TfLiteTensor that delegate_main.cc
reads.  `data` models data.raw_const (none = null pointer); element values are
abstracted as naturals. -/
structure TfLiteTensor where
  type : TfLiteType
  dims : List Nat
  quantization : Option AffineQuantization
  data : Option (List Nat)
  is_variable : Bool
  allocation_type : TfLiteAllocationType
  deriving DecidableEq, Repr

/-- delegate_main.cc TfLiteTensorDims: copies dims->data into a vector. -/
def TfLiteTensorDims (tensor : TfLiteTensor) : List Nat :=
  tensor.dims

/-- delegate_main.cc IsConstTensor: data.raw_const is non-null. -/
def IsConstTensor (tensor : TfLiteTensor) : Bool :=
  tensor.data.isSome

/-- delegate_main.cc IsVariableTensor. -/
def IsVariableTensor (tensor : TfLiteTensor) : Bool :=
  tensor.is_variable

/-- Accelerator storage classes (tim::vx::TensorAttribute). -/
inductive TensorAttribute
  | INPUT
  | OUTPUT
  | CONSTANT
  | VARIABLE
  | TRANSIENT
  deriving DecidableEq, Repr

/-- Accelerator quantization (tim::vx::Quantization as constructed in
CreateTensorSpec). -/
inductive VxQuant
  | none
  | asymmetric (scale : Rat) (zero_point : Int)
  | perChannel (channel_dim : Int) (scales : List Rat) (zero_points : List Int)
  deriving DecidableEq, Repr

/-- Accelerator tensor specification (tim::vx::TensorSpec). -/
structure TensorSpec where
  datatype : VxDataType
  shape : List Nat
  attr : TensorAttribute
  quant : VxQuant
  deriving DecidableEq, Repr

/-- Modelled from the spec: `ConvertAxis` lives in utils.h, which is not among
the provided sources.  The spec states the channel axis is "re-derived by
converting the host channel axis through the same axis-conversion rule applied
to shapes", i.e. position reversal within the (promoted) rank. -/
def ConvertAxis (axis : Int) (dimNum : Nat) : Int :=
  (dimNum : Int) - 1 - axis

/-- CreateTensorSpec lines 170-173: a rank-0 host tensor gets a 1 pushed onto
its dims ("Use rank 1, shape {1} operand for TFLite scalar tensors"). -/
def promoteDims (dims : List Nat) : List Nat :=
  if dims.length = 0 then dims ++ [1] else dims

/-- CreateTensorSpec lines 177-179: the loop writing
whcn_shape[i] = dims[perm[i]] for every i below perm's length. -/
def whcnAssign (whcn dims perm : List Nat) : List Nat :=
  (List.range perm.length).foldl (fun acc i => acc.set i (dims.getD (perm.getD i 0) 0)) whcn

/-- CreateTensorSpec lines 168-183: the accelerator shape.  whcn_shape is
allocated with the pre-promotion size; the permuted branch asserts that perm
and dims have equal length, writes through the permutation and reverses, and
the plain branch assigns the reversed dims.  `none` models undefined behaviour
(assert failure or an out-of-bounds vector access). -/
def tensorShape (dims0 perm : List Nat) : Option (List Nat) :=
  if 0 < perm.length then
    if perm.length = (promoteDims dims0).length ∧ perm.length ≤ dims0.length
        ∧ ∀ p ∈ perm, p < (promoteDims dims0).length then
      some ((whcnAssign (List.replicate dims0.length 0) (promoteDims dims0) perm).reverse)
    else none
  else
    some (promoteDims dims0).reverse

/-- CreateTensorSpec lines 185-206: quantization construction.  More than one
scale gives SYMMETRIC_PER_CHANNEL with the channel axis converted via
ConvertAxis at the promoted rank; otherwise scales[0] / zero_points[0] build an
ASYMMETRIC quantization (`none` models the out-of-bounds read when they are
empty); absent affine metadata gives no quantization. -/
def tensorQuant (quant : Option AffineQuantization) (rank : Nat) : Option VxQuant :=
  match quant with
  | Option.none => some VxQuant.none
  | some params =>
    if 1 < params.scale.length then
      some (VxQuant.perChannel (ConvertAxis params.quantized_dimension rank)
        params.scale params.zero_point)
    else
      match params.scale, params.zero_point with
      | s :: _, z :: _ => some (VxQuant.asymmetric s z)
      | _, _ => none

/-- delegate_main.cc CreateTensorSpec (lines 162-212). -/
def CreateTensorSpec (tensor : TfLiteTensor) (perm : List Nat) (attr : TensorAttribute) :
    Option TensorSpec :=
  let datatype := TfLiteDtypeToVsiDtype tensor.type
  match tensorShape (TfLiteTensorDims tensor) perm,
      tensorQuant tensor.quantization (promoteDims (TfLiteTensorDims tensor)).length with
  | some shape, some quant =>
    some { datatype := datatype, shape := shape, attr := attr, quant := quant }
  | _, _ => none

/-- Row-major strides of a shape: flat index = sum of index[i] * stride[i]. -/
def dimStrides (dims : List Nat) : List Nat :=
  (List.range dims.length).map (fun i => (dims.drop (i + 1)).prod)

/-- Element-level semantics of tflite reference Transpose as invoked by
TransposeTensorData: output shape gathers dims through perm and
output[j0,...,jn] = input at the multi-index sending j through perm. -/
def transposeData (dims perm : List Nat) (data : List Nat) : List Nat :=
  let outShape := perm.map (fun p => dims.getD p 0)
  let sIn := dimStrides dims
  let sOut := dimStrides outShape
  (List.range outShape.prod).map (fun o =>
    data.getD ((List.range perm.length).foldl
      (fun acc i =>
        acc + ((o / sOut.getD i 1) % outShape.getD i 1) * sIn.getD (perm.getD i 0) 0)
      0) 0)

/-- TransposeTensorData lines 233-270: the element-type switch has cases for
the 32-bit, 16-bit and 8-bit widths; the default branch logs and fails. -/
def transposeSupported : TfLiteType → Bool
  | TfLiteType.float32 => true
  | TfLiteType.int32 => true
  | TfLiteType.int16 => true
  | TfLiteType.float16 => true
  | TfLiteType.uint8 => true
  | TfLiteType.int8 => true
  | TfLiteType.bool => false
  | TfLiteType.other => false

/-- delegate_main.cc TransposeTensorData (lines 214-273): fails on a null data
pointer, fails (after logging) on an element type outside the switch, and
otherwise returns the transposed buffer. -/
def TransposeTensorData (tensor : TfLiteTensor) (perm : List Nat) : Option (List Nat) :=
  match tensor.data with
  | Option.none => none
  | some bytes =>
    if transposeSupported tensor.type then
      some (transposeData tensor.dims perm bytes)
    else
      none

/-- The accelerator tensor as created by graph->CreateTensor: its spec plus the
byte buffer handed over (`none` models a null data pointer). -/
structure CreatedTensor where
  spec : TensorSpec
  source : Option (List Nat)
  deriving DecidableEq, Repr

/-- delegate_main.cc CreateTensor (lines 275-303): builds the spec, and for
CONSTANT storage takes the raw pointer; with a non-empty permutation a
successful TransposeTensorData creates the tensor from the transposed bytes,
otherwise control falls through and the tensor is created from the original
pointer.  Non-CONSTANT classes are created from a null pointer. -/
def CreateTensor (tensor : TfLiteTensor) (attr : TensorAttribute) (perm : List Nat) :
    Option CreatedTensor :=
  match CreateTensorSpec tensor perm attr with
  | Option.none => none
  | some spec =>
    match attr with
    | TensorAttribute.CONSTANT =>
      if 0 < perm.length then
        match TransposeTensorData tensor perm with
        | some data_transposed => some { spec := spec, source := some data_transposed }
        | Option.none => some { spec := spec, source := tensor.data }
      else
        some { spec := spec, source := tensor.data }
    | _ => some { spec := spec, source := none }

/-- MapIndexesToTensors line 313: tensors[(index + tensors.size()) % tensors.size()]
with the int index converted to size_t, so the arithmetic wraps modulo 2^64
before the reduction by the table size. -/
def wrapIndex (size : Nat) (index : Int) : Nat :=
  ((index % (2 ^ 64 : Int)).toNat + size) % 2 ^ 64 % size

/-- delegate_main.cc MapIndexesToTensors (lines 305-316): std::transform of the
index list through the wrapped table lookup. -/
def MapIndexesToTensors {α : Type} (d : α) (tensors : List α) (indexes : List Int) : List α :=
  indexes.map (fun index => tensors.getD (wrapIndex tensors.length index) d)

/-- The registration fields Delegate::SupportedOp reads. -/
structure TfLiteRegistration where
  custom_name : Option String
  builtin_code : Int
  deriving DecidableEq, Repr

/-- Delegate::SupportedOp lines 354-364: the code reached when the custom
lookup does not decide — the builtin registry is consulted by numeric code,
delegating to the entry's IsSupported; a miss logs the fallback diagnostic
and answers false.  The second component records the emitted diagnostic. -/
def supportedOpFallback {Ctx Node : Type}
    (builtinOps : List (Int × (Ctx → Node → TfLiteRegistration → Bool)))
    (context : Ctx) (node : Node) (reg : TfLiteRegistration) : Bool × Bool :=
  match builtinOps.lookup reg.builtin_code with
  | some rule => (rule context node reg, false)
  | Option.none => (false, true)

/-- Delegate::SupportedOp (lines 343-365), with the external op_map registries
passed in as association lists keyed by custom name and by builtin code. -/
def SupportedOp {Ctx Node : Type}
    (customOps : List (String × (Ctx → Node → TfLiteRegistration → Bool)))
    (builtinOps : List (Int × (Ctx → Node → TfLiteRegistration → Bool)))
    (context : Ctx) (node : Node) (reg : TfLiteRegistration) : Bool × Bool :=
  match reg.custom_name with
  | some name =>
    match customOps.lookup name with
    | some rule => (rule context node reg, false)
    | Option.none => supportedOpFallback builtinOps context node reg
  | Option.none => supportedOpFallback builtinOps context node reg

/-- PrepareDelegate lines 84-90: the loop pushing each plan node whose operator
is classified supported onto the vector initialised to {0}. -/
def prepareLoop (supported : Nat → Bool) (plan supported_nodes : List Nat) : List Nat :=
  match plan with
  | [] => supported_nodes
  | node_index :: rest =>
    prepareLoop supported rest
      (if supported node_index then supported_nodes ++ [node_index] else supported_nodes)

/-- delegate_main.cc PrepareDelegate (lines 76-101): walk the execution plan,
collect the supported nodes after a leading slot, then overwrite the leading
slot with the accepted count; the result is handed to
ReplaceNodeSubsetsWithDelegateKernels. -/
def PrepareDelegate {Ctx Node : Type}
    (customOps : List (String × (Ctx → Node → TfLiteRegistration → Bool)))
    (builtinOps : List (Int × (Ctx → Node → TfLiteRegistration → Bool)))
    (context : Ctx) (getNode : Nat → Node) (getReg : Nat → TfLiteRegistration)
    (plan : List Nat) : List Nat :=
  let supported_nodes := prepareLoop
    (fun n => (SupportedOp customOps builtinOps context (getNode n) (getReg n)).1) plan [0]
  supported_nodes.set 0 (supported_nodes.length - 1)

/-- Delegate::Init lines 390-396: subgraph inputs are the host input tensor
indices whose allocation type is not kTfLiteMmapRo, pushed in host order. -/
def initSubgraphInputs (ctx : Nat → TfLiteTensor) (input_tensors : List Nat) : List Nat :=
  input_tensors.foldl
    (fun acc idx =>
      if (ctx idx).allocation_type ≠ TfLiteAllocationType.kTfLiteMmapRo then acc ++ [idx]
      else acc)
    []

/-- Delegate::Init lines 398-401: subgraph outputs are std::copy of the host
output tensor index list. -/
def initSubgraphOutputs (output_tensors : List Nat) : List Nat :=
  output_tensors.foldl (fun acc idx => acc ++ [idx]) []

/-- The per-node record Delegate::Init extracts (tensor index lists only). -/
structure OperationRecord where
  inputs : List Int
  outputs : List Int
  states : List Int
  deriving DecidableEq, Repr

/-- The lazily built index-to-tensor table: one optional entry per slot, plus a
counter giving each created accelerator tensor a distinct identity. -/
structure BuildSt where
  table : List (Option Nat)
  next : Nat
  deriving DecidableEq, Repr

/-- The guarded creation step of Delegate::Invoke (lines 477-524): an index is
created only when it is not the -1 sentinel and its table entry is still null;
creation fills the entry with a fresh tensor identity. -/
def createIfAbsent (s : BuildSt) (idx : Int) : BuildSt :=
  if idx ≠ -1 ∧ s.table.getD idx.toNat none = none then
    { table := s.table.set idx.toNat (some s.next), next := s.next + 1 }
  else s

/-- The sequence of tensor indices the one-time build touches: subgraph inputs,
then subgraph outputs, then every operation's inputs followed by its outputs
(lines 477-524, with inputs_outputs the concatenation at lines 503-507). -/
def buildTouchList (subgraph_inputs subgraph_outputs : List Int)
    (operations : List OperationRecord) : List Int :=
  subgraph_inputs ++ subgraph_outputs ++
    (operations.map (fun op => op.inputs ++ op.outputs)).flatten

/-- The table as left by the one-time build: every touch runs the guarded
creation step against a table of initially null entries. -/
def buildTensorTable (size : Nat) (subgraph_inputs subgraph_outputs : List Int)
    (operations : List OperationRecord) : BuildSt :=
  (buildTouchList subgraph_inputs subgraph_outputs operations).foldl createIfAbsent
    { table := List.replicate size none, next := 0 }

/-- Outcome of one Delegate::Invoke call as seen by the host. -/
inductive InvokeOutcome
  | ok
  | delegateError
  | fatalAbort
  deriving DecidableEq, Repr

/-- Modelled from the spec: TFLITE_LOG(FATAL) comes from the host runtime's
logging header, outside the provided sources; the spec's fatal policy says the
failure is "logged at the highest severity and the invocation aborts; no
retry, no fallback". -/
def fatalLogOutcome : InvokeOutcome :=
  InvokeOutcome.fatalAbort

/-- Delegate::Invoke control flow after tensor creation (lines 561-622): a
compile failure on the first call hits the fatal log (the delegate-error
return behind it is unreachable), a run failure hits the fatal log before any
output is copied back, and otherwise outputs are copied and kTfLiteOk is
returned.  The boolean records whether output copy-back happened. -/
def invokeAfterBuild (needBuild compileOk runOk : Bool) : InvokeOutcome × Bool :=
  if needBuild && !compileOk then (fatalLogOutcome, false)
  else if !runOk then (fatalLogOutcome, false)
  else (InvokeOutcome.ok, true)

/-! Concrete fixtures used to evaluate the definitions on sample inputs -/

/-- A rank-2 float tensor without quantization or data. -/
def sampleTensor : TfLiteTensor :=
  { type := TfLiteType.float32, dims := [2, 3], quantization := none, data := none,
    is_variable := false, allocation_type := TfLiteAllocationType.kTfLiteArenaRw }

/-- The spec produced for sampleTensor under permutation [1, 0]. -/
def sampleSpec : TensorSpec :=
  { datatype := VxDataType.FLOAT32, shape := [2, 3], attr := TensorAttribute.TRANSIENT,
    quant := VxQuant.none }

/-- A rank-0 (scalar) int tensor. -/
def scalarTensor : TfLiteTensor :=
  { type := TfLiteType.int32, dims := [], quantization := none, data := none,
    is_variable := false, allocation_type := TfLiteAllocationType.kTfLiteArenaRw }

/-- The spec produced for scalarTensor with no permutation. -/
def scalarSpec : TensorSpec :=
  { datatype := VxDataType.INT32, shape := [1], attr := TensorAttribute.INPUT,
    quant := VxQuant.none }

/-- A rank-4 uint8 tensor with two scales and host channel axis 3. -/
def quantTensor : TfLiteTensor :=
  { type := TfLiteType.uint8, dims := [2, 3, 4, 5],
    quantization := some { scale := [(1 : Rat), 2], zero_point := [(0 : Int), 0],
                           quantized_dimension := 3 },
    data := none, is_variable := false,
    allocation_type := TfLiteAllocationType.kTfLiteMmapRo }

/-- The spec produced for quantTensor with no permutation. -/
def quantSpec : TensorSpec :=
  { datatype := VxDataType.UINT8, shape := [5, 4, 3, 2], attr := TensorAttribute.CONSTANT,
    quant := VxQuant.perChannel 0 [(1 : Rat), 2] [(0 : Int), 0] }

/-- A boolean constant tensor: its element type has no transpose case. -/
def boolConstTensor : TfLiteTensor :=
  { type := TfLiteType.bool, dims := [2], quantization := none, data := some [1, 0],
    is_variable := false, allocation_type := TfLiteAllocationType.kTfLiteMmapRo }

/-- The accelerator tensor created for boolConstTensor as a CONSTANT under
permutation [0]: the transpose fails, so the source is the original buffer. -/
def boolConstCreated : CreatedTensor :=
  { spec := { datatype := VxDataType.INT8, shape := [2], attr := TensorAttribute.CONSTANT,
              quant := VxQuant.none },
    source := some [1, 0] }

/-! Helper lemmas -/

theorem prepareLoop_eq (supported : Nat → Bool) :
    ∀ plan acc : List Nat, prepareLoop supported plan acc = acc ++ plan.filter supported := by
  intro plan
  induction plan with
  | nil => intro acc; simp [prepareLoop]
  | cons n rest ih =>
    intro acc
    by_cases h : supported n
    · simp [prepareLoop, h, ih, List.filter_cons]
    · simp [prepareLoop, h, ih, List.filter_cons]

theorem initSubgraphInputs_aux (ctx : Nat → TfLiteTensor) :
    ∀ input_tensors acc : List Nat,
      input_tensors.foldl
        (fun acc idx =>
          if (ctx idx).allocation_type ≠ TfLiteAllocationType.kTfLiteMmapRo then acc ++ [idx]
          else acc) acc
      = acc ++ input_tensors.filter
          (fun idx => (ctx idx).allocation_type ≠ TfLiteAllocationType.kTfLiteMmapRo) := by
  intro input_tensors
  induction input_tensors with
  | nil => intro acc; simp
  | cons i rest ih =>
    intro acc
    rw [List.foldl_cons, ih, List.filter_cons]
    by_cases h : (ctx i).allocation_type = TfLiteAllocationType.kTfLiteMmapRo
    · simp [h]
    · simp [h]

theorem initSubgraphOutputs_aux :
    ∀ output_tensors acc : List Nat,
      output_tensors.foldl (fun acc idx => acc ++ [idx]) acc = acc ++ output_tensors := by
  intro output_tensors
  induction output_tensors with
  | nil => intro acc; simp
  | cons i rest ih => intro acc; simp [ih]

theorem createIfAbsent_table_length (s : BuildSt) (idx : Int) :
    (createIfAbsent s idx).table.length = s.table.length := by
  unfold createIfAbsent
  split
  · show (s.table.set idx.toNat (some s.next)).length = s.table.length
    simp
  · rfl

theorem foldl_createIfAbsent_length (l : List Int) :
    ∀ s : BuildSt, (l.foldl createIfAbsent s).table.length = s.table.length := by
  induction l with
  | nil => intro s; rfl
  | cons i rest ih =>
    intro s
    rw [List.foldl_cons, ih, createIfAbsent_table_length]

theorem createIfAbsent_pres_some (s : BuildSt) (idx : Int) (j t : Nat)
    (h : s.table.getD j none = some t) :
    (createIfAbsent s idx).table.getD j none = some t := by
  unfold createIfAbsent
  split
  next hc =>
    by_cases hj : idx.toNat = j
    · rw [hj] at hc
      rw [hc.2] at h
      simp at h
    · show (s.table.set idx.toNat (some s.next)).getD j none = some t
      rw [List.getD_eq_getElem?_getD, List.getElem?_set_ne hj]
      rw [List.getD_eq_getElem?_getD] at h
      exact h
  next => exact h

theorem foldl_createIfAbsent_pres_some (l : List Int) :
    ∀ (s : BuildSt) (j t : Nat), s.table.getD j none = some t →
      (l.foldl createIfAbsent s).table.getD j none = some t := by
  induction l with
  | nil => intro s j t h; exact h
  | cons i rest ih =>
    intro s j t h
    exact ih _ _ _ (createIfAbsent_pres_some s i j t h)

theorem createIfAbsent_creates (s : BuildSt) (idx : Int) (hne : idx ≠ -1)
    (hin : idx.toNat < s.table.length) :
    ∃ t, (createIfAbsent s idx).table.getD idx.toNat none = some t := by
  unfold createIfAbsent
  by_cases hnull : s.table.getD idx.toNat none = none
  · rw [if_pos ⟨hne, hnull⟩]
    refine ⟨s.next, ?_⟩
    show (s.table.set idx.toNat (some s.next)).getD idx.toNat none = some s.next
    rw [List.getD_eq_getElem?_getD, List.getElem?_set_self hin]
    rfl
  · rw [if_neg (fun hc => hnull hc.2)]
    cases hopt : s.table.getD idx.toNat none with
    | none => exact absurd hopt hnull
    | some t => exact ⟨t, rfl⟩

theorem createIfAbsent_noop (s : BuildSt) (idx : Int) (t : Nat)
    (h : s.table.getD idx.toNat none = some t) :
    createIfAbsent s idx = s := by
  unfold createIfAbsent
  rw [if_neg]
  intro hc
  rw [hc.2] at h
  simp at h

theorem createIfAbsent_neg_one (s : BuildSt) : createIfAbsent s (-1) = s := by
  unfold createIfAbsent
  rw [if_neg]
  intro hc
  exact hc.1 rfl

theorem foldl_create_twice (s0 : BuildSt) (pre mid post : List Int) (idx : Int)
    (hin : idx.toNat < s0.table.length) :
    (pre ++ idx :: (mid ++ idx :: post)).foldl createIfAbsent s0
      = (pre ++ idx :: (mid ++ post)).foldl createIfAbsent s0 := by
  simp only [List.foldl_append, List.foldl_cons]
  congr 1
  by_cases hneg : idx = -1
  · rw [hneg, createIfAbsent_neg_one]
  · have hlen : idx.toNat < (List.foldl createIfAbsent s0 pre).table.length := by
      rw [foldl_createIfAbsent_length]
      exact hin
    obtain ⟨t, h2⟩ := createIfAbsent_creates _ idx hneg hlen
    have h3 := foldl_createIfAbsent_pres_some mid _ idx.toNat t h2
    exact createIfAbsent_noop _ idx t h3

theorem foldl_create_stable (s0 : BuildSt) (pre rest : List Int) (idx : Int) (t : Nat)
    (h : ((pre ++ [idx]).foldl createIfAbsent s0).table.getD idx.toNat none = some t) :
    ((pre ++ idx :: rest).foldl createIfAbsent s0).table.getD idx.toNat none = some t := by
  simp only [List.foldl_append, List.foldl_cons, List.foldl_nil] at h ⊢
  exact foldl_createIfAbsent_pres_some rest _ idx.toNat t h

theorem foldl_set_range (g : Nat → Nat) :
    ∀ (n : Nat) (ws : List Nat), n ≤ ws.length →
      (List.range n).foldl (fun acc i => acc.set i (g i)) ws
        = (List.range n).map g ++ ws.drop n := by
  intro n
  induction n with
  | zero => intro ws h; simp
  | succ n ih =>
    intro ws h
    rw [List.range_succ, List.foldl_append, List.foldl_cons, List.foldl_nil,
      ih ws (Nat.le_of_succ_le h)]
    have hlt : n < ws.length := h
    rw [List.set_append, if_neg (by simp)]
    simp only [List.length_map, List.length_range, Nat.sub_self]
    rw [List.drop_eq_getElem_cons hlt, List.set_cons_zero]
    simp [List.range_succ]

theorem range_map_getD (f : Nat → Nat) (d : Nat) :
    ∀ l : List Nat, (List.range l.length).map (fun i => f (l.getD i d)) = l.map f := by
  intro l
  induction l with
  | nil => simp
  | cons a t ih =>
    rw [List.length_cons, List.range_succ_eq_map, List.map_cons, List.map_map, List.map_cons]
    congr 1

theorem whcnAssign_eq_map (dims perm whcn : List Nat) (h : whcn.length = perm.length) :
    whcnAssign whcn dims perm = perm.map (fun p => dims.getD p 0) := by
  unfold whcnAssign
  rw [foldl_set_range _ perm.length whcn (le_of_eq h.symm),
    List.drop_eq_nil_of_le (le_of_eq h), List.append_nil]
  exact range_map_getD (fun p => dims.getD p 0) 0 perm

theorem createTensorSpec_shape (tensor : TfLiteTensor) (perm : List Nat)
    (attr : TensorAttribute) (spec : TensorSpec)
    (hps : CreateTensorSpec tensor perm attr = some spec) :
    tensorShape (TfLiteTensorDims tensor) perm = some spec.shape := by
  unfold CreateTensorSpec at hps
  split at hps
  next shape quant hsh hq =>
    injection hps with h
    subst h
    exact hsh
  next => simp at hps

theorem createTensorSpec_quant (tensor : TfLiteTensor) (perm : List Nat)
    (attr : TensorAttribute) (spec : TensorSpec)
    (hps : CreateTensorSpec tensor perm attr = some spec) :
    tensorQuant tensor.quantization (promoteDims (TfLiteTensorDims tensor)).length
      = some spec.quant := by
  unfold CreateTensorSpec at hps
  split at hps
  next shape quant hsh hq =>
    injection hps with h
    subst h
    exact hq
  next => simp at hps

/-! Claim theorems -/

/-- C2: for every execution plan walked by the legality filter, the
accepted-node list handed to ReplaceNodeSubsetsWithDelegateKernels contains
exactly the nodes classified supported by SupportedOp, in plan order, preceded
by a leading element equal to the count of accepted nodes. -/
theorem prepare_accepted_list {Ctx Node : Type}
    (customOps : List (String × (Ctx → Node → TfLiteRegistration → Bool)))
    (builtinOps : List (Int × (Ctx → Node → TfLiteRegistration → Bool)))
    (context : Ctx) (getNode : Nat → Node) (getReg : Nat → TfLiteRegistration)
    (plan : List Nat) :
    PrepareDelegate customOps builtinOps context getNode getReg plan
      = (plan.filter
          (fun n => (SupportedOp customOps builtinOps context (getNode n) (getReg n)).1)).length
        :: plan.filter
          (fun n => (SupportedOp customOps builtinOps context (getNode n) (getReg n)).1) := by
  unfold PrepareDelegate
  rw [prepareLoop_eq]
  simp

/-- C8: the recorded subgraph-input index set is exactly the host-supplied
input list filtered to tensors whose allocation is not kTfLiteMmapRo, in host
order, and the subgraph-output index set is the host-supplied output list
verbatim. -/
theorem init_subgraph_io_collection (ctx : Nat → TfLiteTensor)
    (input_tensors output_tensors : List Nat) :
    initSubgraphInputs ctx input_tensors
      = input_tensors.filter
          (fun idx => (ctx idx).allocation_type ≠ TfLiteAllocationType.kTfLiteMmapRo)
  ∧ initSubgraphOutputs output_tensors = output_tensors := by
  constructor
  · unfold initSubgraphInputs
    rw [initSubgraphInputs_aux]
    simp
  · unfold initSubgraphOutputs
    rw [initSubgraphOutputs_aux]
    simp

/-- C6: a failed run of the compiled graph at invoke time hits the same fatal
outcome as a compile failure; it never reports success to the host and never
performs the output copy-back that a successful run would. -/
theorem run_failure_fatal (needBuild : Bool) :
    invokeAfterBuild needBuild true false = invokeAfterBuild true false true
  ∧ (invokeAfterBuild needBuild true false).1 ≠ InvokeOutcome.ok
  ∧ (invokeAfterBuild needBuild true false).2 = false := by
  cases needBuild <;> simp [invokeAfterBuild, fatalLogOutcome]

/-- C3: during the one-time graph build, accelerator tensor creation is
idempotent per tensor index: whenever the build's touch sequence (subgraph
inputs, subgraph outputs, node operands) reaches an index a second time, the
second guarded creation is a no-op, and once an index's entry has been created
every later build step leaves it resolving to the same accelerator tensor. -/
theorem build_tensor_creation_idempotent (size : Nat)
    (subgraph_inputs subgraph_outputs : List Int) (operations : List OperationRecord)
    (pre mid post : List Int) (idx : Int)
    (hin : idx.toNat < size)
    (hdecomp : buildTouchList subgraph_inputs subgraph_outputs operations
      = pre ++ idx :: (mid ++ idx :: post)) :
    buildTensorTable size subgraph_inputs subgraph_outputs operations
      = (pre ++ idx :: (mid ++ post)).foldl createIfAbsent
          { table := List.replicate size none, next := 0 }
  ∧ ∀ t, ((pre ++ [idx]).foldl createIfAbsent
        ({ table := List.replicate size none, next := 0 } : BuildSt)).table.getD
          idx.toNat none = some t →
      (buildTensorTable size subgraph_inputs subgraph_outputs operations).table.getD
        idx.toNat none = some t := by
  unfold buildTensorTable
  rw [hdecomp]
  constructor
  · exact foldl_create_twice _ pre mid post idx (by simpa using hin)
  · intro t h
    exact foldl_create_stable _ pre (mid ++ idx :: post) idx t h

/-- C1: the accelerator shape produced by spec construction is the reverse of
the host shape when no permutation is supplied; a non-empty permutation (which
must have the host shape's length) gathers the shape entries through the
permutation first and then reverses the whole ordered list
(gather-then-reverse). -/
theorem spec_shape_gather_then_reverse (tensor : TfLiteTensor) (perm : List Nat)
    (attr : TensorAttribute) (spec : TensorSpec)
    (hrank : tensor.dims ≠ [])
    (hps : CreateTensorSpec tensor perm attr = some spec) :
    (perm = [] → spec.shape = tensor.dims.reverse)
  ∧ (perm ≠ [] → perm.length = tensor.dims.length
      ∧ spec.shape = (perm.map (fun p => tensor.dims.getD p 0)).reverse) := by
  have hsh := createTensorSpec_shape tensor perm attr spec hps
  have hpd : promoteDims (TfLiteTensorDims tensor) = tensor.dims := by
    unfold promoteDims TfLiteTensorDims
    rw [if_neg]
    simpa [List.length_eq_zero] using hrank
  unfold tensorShape at hsh
  rw [hpd] at hsh
  unfold TfLiteTensorDims at hsh
  constructor
  · intro h
    subst h
    simp only [List.length_nil, lt_irrefl, if_false, reduceIte] at hsh
    injection hsh with h2
    exact h2.symm
  · intro h
    have hlen : 0 < perm.length := List.length_pos.mpr h
    rw [if_pos hlen] at hsh
    split at hsh
    next hc =>
      injection hsh with h2
      refine ⟨hc.1, ?_⟩
      rw [← h2]
      congr 1
      apply whcnAssign_eq_map
      simpa using hc.1.symm
    next => simp at hsh

/-- C9: a rank-0 host tensor yields a rank-1 accelerator tensor of size 1. -/
theorem scalar_promotion (tensor : TfLiteTensor) (attr : TensorAttribute) (spec : TensorSpec)
    (hdims : tensor.dims = [])
    (hps : CreateTensorSpec tensor [] attr = some spec) :
    spec.shape = [1] := by
  have hsh := createTensorSpec_shape tensor [] attr spec hps
  unfold tensorShape at hsh
  simp [TfLiteTensorDims, hdims, promoteDims] at hsh
  exact hsh.symm

/-- C4: absent quantization metadata yields no quantization in the spec;
exactly one scale/zero-point pair yields asymmetric quantization with that
scale and zero point; more than one scale yields per-channel quantization
whose channel axis is the host quantized_dimension converted through
ConvertAxis at the promoted rank — the same axis-conversion rule the spec
applies to shapes — never the unconverted host axis. -/
theorem quantization_conversion (tensor : TfLiteTensor) (perm : List Nat)
    (attr : TensorAttribute) (spec : TensorSpec)
    (hps : CreateTensorSpec tensor perm attr = some spec) :
    (tensor.quantization = none → spec.quant = VxQuant.none)
  ∧ (∀ params s z zs, tensor.quantization = some params → params.scale = [s] →
      params.zero_point = z :: zs → spec.quant = VxQuant.asymmetric s z)
  ∧ (∀ params, tensor.quantization = some params → 1 < params.scale.length →
      spec.quant = VxQuant.perChannel
        (ConvertAxis params.quantized_dimension (promoteDims tensor.dims).length)
        params.scale params.zero_point) := by
  have hq := createTensorSpec_quant tensor perm attr spec hps
  refine ⟨?_, ?_, ?_⟩
  · intro h
    rw [h] at hq
    simp [tensorQuant] at hq
    exact hq.symm
  · intro params s z zs hqz hs hz
    rw [hqz] at hq
    simp only [tensorQuant] at hq
    rw [hs, hz] at hq
    simp at hq
    exact hq.symm
  · intro params hqz hgt
    rw [hqz] at hq
    simp only [tensorQuant] at hq
    rw [if_pos hgt] at hq
    injection hq with h2
    exact h2.symm

/-- C7: the legality query consults the custom-operator registry first (only
when a custom name is present), falls back to the builtin registry keyed by
numeric code, delegates the decision to the found entry's own rule, and when
the operator identity is absent from both registries answers false and emits
the diagnostic. -/
theorem supported_op_lookup {Ctx Node : Type}
    (customOps : List (String × (Ctx → Node → TfLiteRegistration → Bool)))
    (builtinOps : List (Int × (Ctx → Node → TfLiteRegistration → Bool)))
    (context : Ctx) (node : Node) (reg : TfLiteRegistration) :
    (∀ name rule, reg.custom_name = some name → customOps.lookup name = some rule →
        SupportedOp customOps builtinOps context node reg = (rule context node reg, false))
  ∧ (∀ rule, (reg.custom_name = none
        ∨ ∃ name, reg.custom_name = some name ∧ customOps.lookup name = none) →
      builtinOps.lookup reg.builtin_code = some rule →
        SupportedOp customOps builtinOps context node reg = (rule context node reg, false))
  ∧ ((reg.custom_name = none
        ∨ ∃ name, reg.custom_name = some name ∧ customOps.lookup name = none) →
      builtinOps.lookup reg.builtin_code = none →
        SupportedOp customOps builtinOps context node reg = (false, true)) := by
  refine ⟨?_, ?_, ?_⟩
  · intro name rule hname hrule
    unfold SupportedOp
    rw [hname]
    simp only [hrule]
  · intro rule hcustom hbuiltin
    unfold SupportedOp
    rcases hcustom with h | ⟨name, hname, hnone⟩
    · rw [h]
      simp only [supportedOpFallback, hbuiltin]
    · rw [hname]
      simp only [hnone, supportedOpFallback, hbuiltin]
  · intro hcustom hbuiltin
    unfold SupportedOp
    rcases hcustom with h | ⟨name, hname, hnone⟩
    · rw [h]
      simp only [supportedOpFallback, hbuiltin]
    · rw [hname]
      simp only [hnone, supportedOpFallback, hbuiltin]

/-- C5: a CONSTANT-class accelerator tensor with a non-empty permutation takes
its bytes from a successful TransposeTensorData; when the element type has no
transpose implementation the transpose call fails, the caller receives no
transposed buffer, and the constant is not created from transposed bytes (the
creation falls through to the original byte pointer). -/
theorem constant_transpose_required (tensor : TfLiteTensor) (perm : List Nat)
    (hperm : perm ≠ []) :
    (∀ ct d, CreateTensor tensor TensorAttribute.CONSTANT perm = some ct →
        TransposeTensorData tensor perm = some d → ct.source = some d)
  ∧ (transposeSupported tensor.type = false →
      TransposeTensorData tensor perm = none
      ∧ ∀ ct, CreateTensor tensor TensorAttribute.CONSTANT perm = some ct →
          ct.source = tensor.data) := by
  have hlen : 0 < perm.length := List.length_pos.mpr hperm
  constructor
  · intro ct d hct htr
    unfold CreateTensor at hct
    split at hct
    next => simp at hct
    next spec hspec =>
      rw [if_pos hlen, htr] at hct
      injection hct with h
      rw [← h]
  · intro hunsupp
    have htr : TransposeTensorData tensor perm = none := by
      unfold TransposeTensorData
      cases hdata : tensor.data with
      | none => rfl
      | some bytes => simp [hunsupp]
    refine ⟨htr, ?_⟩
    intro ct hct
    unfold CreateTensor at hct
    split at hct
    next => simp at hct
    next spec hspec =>
      rw [if_pos hlen, htr] at hct
      injection hct with h
      rw [← h]

theorem wrapIndex_neg_one (size : Nat) (h1 : 1 ≤ size) (h2 : size ≤ 2 ^ 32) :
    wrapIndex size (-1) = size - 1 := by
  unfold wrapIndex
  have e1 : (-1 : Int) % (2 ^ 64 : Int) = 2 ^ 64 - 1 := by decide
  rw [e1]
  have e2 : ((2 ^ 64 - 1 : Int)).toNat = 2 ^ 64 - 1 := by decide
  rw [e2]
  have e3 : 2 ^ 64 - 1 + size = 2 ^ 64 + (size - 1) := by omega
  rw [e3, Nat.add_mod_left]
  have e4 : size - 1 < 2 ^ 64 := by
    have : (2 : Nat) ^ 32 < 2 ^ 64 := by norm_num
    omega
  rw [Nat.mod_eq_of_lt e4, Nat.mod_eq_of_lt (by omega)]

theorem wrapIndex_nat (size i : Nat) (h2 : size ≤ 2 ^ 32) (hi : i < size) :
    wrapIndex size (i : Int) = i := by
  unfold wrapIndex
  have hcast : (i : Int) < 2 ^ 64 := by
    have hlt : (2 : Nat) ^ 32 < 2 ^ 64 := by norm_num
    exact_mod_cast (by omega : i < 2 ^ 64)
  have e1 : (i : Int) % (2 ^ 64 : Int) = i :=
    Int.emod_eq_of_lt (Int.natCast_nonneg i) hcast
  rw [e1, Int.toNat_natCast]
  have e2 : i + size < 2 ^ 64 := by
    have : (2 : Nat) ^ 32 < 2 ^ 64 := by norm_num
    omega
  rw [Nat.mod_eq_of_lt e2, Nat.add_mod_right, Nat.mod_eq_of_lt hi]

/-- C10: resolving a node's operand index list wraps every index modulo the
table size, so the sentinel index -1 resolves to the reserved placeholder in
the last table slot while every in-range non-negative index resolves to its
own slot. -/
theorem map_indexes_wrap {α : Type} (d : α) (tensors : List α) (indexes : List Int)
    (h1 : 1 ≤ tensors.length) (h2 : tensors.length ≤ 2 ^ 32) :
    (∀ k, k < indexes.length → indexes.getD k 0 = -1 →
        (MapIndexesToTensors d tensors indexes).getD k d
          = tensors.getD (tensors.length - 1) d)
  ∧ (∀ k (i : Nat), k < indexes.length → indexes.getD k 0 = (i : Int) →
        i < tensors.length →
        (MapIndexesToTensors d tensors indexes).getD k d = tensors.getD i d) := by
  have hmap : ∀ k, k < indexes.length →
      (MapIndexesToTensors d tensors indexes).getD k d
        = tensors.getD (wrapIndex tensors.length (indexes.getD k 0)) d := by
    intro k hk
    unfold MapIndexesToTensors
    rw [List.getD_eq_getElem?_getD, List.getElem?_map]
    have hidx : indexes[k]? = some (indexes.getD k 0) := by
      rw [List.getD_eq_getElem?_getD]
      cases h : indexes[k]? with
      | none =>
        have := List.getElem?_eq_none_iff.mp h
        omega
      | some v => rfl
    rw [hidx]
    rfl
  constructor
  · intro k hk hneg
    rw [hmap k hk, hneg, wrapIndex_neg_one tensors.length h1 h2]
  · intro k i hk hi hlt
    rw [hmap k hk, hi, wrapIndex_nat tensors.length i h2 hlt]

/-! Witnesses: each applies its claim's theorem at a concrete input. -/

/-- Witness for C1 at a rank-2 tensor with permutation [1, 0]. -/
theorem spec_shape_gather_then_reverse_witness :
    sampleTensor.dims ≠ []
  ∧ CreateTensorSpec sampleTensor [1, 0] TensorAttribute.TRANSIENT = some sampleSpec
  ∧ sampleSpec.shape = ([1, 0].map (fun p => sampleTensor.dims.getD p 0)).reverse :=
  ⟨by decide, by decide,
    ((spec_shape_gather_then_reverse sampleTensor [1, 0] TensorAttribute.TRANSIENT sampleSpec
      (by decide) (by decide)).2 (by decide)).2⟩

/-- Witness for C3: in a 3-slot table the touch sequence 0,1,0,1,2 creates the
tensor for index 0 once; dropping the duplicate touch yields the same build. -/
theorem build_tensor_creation_idempotent_witness :
    ((0 : Int)).toNat < 3
  ∧ buildTouchList [0] [1] [{ inputs := [0, 1], outputs := [2], states := [] }]
      = [] ++ (0 : Int) :: ([1] ++ (0 : Int) :: [1, 2])
  ∧ buildTensorTable 3 [0] [1] [{ inputs := [0, 1], outputs := [2], states := [] }]
      = ([] ++ (0 : Int) :: ([1] ++ [1, 2])).foldl createIfAbsent
          { table := List.replicate 3 none, next := 0 } :=
  ⟨by decide, by decide,
    (build_tensor_creation_idempotent 3 [0] [1]
      [{ inputs := [0, 1], outputs := [2], states := [] }]
      [] [1] [1, 2] 0 (by decide) (by decide)).1⟩

/-- Witness for C4 at a rank-4 per-channel tensor with host channel axis 3. -/
theorem quantization_conversion_witness :
    CreateTensorSpec quantTensor [] TensorAttribute.CONSTANT = some quantSpec
  ∧ quantSpec.quant = VxQuant.perChannel
      (ConvertAxis 3 (promoteDims quantTensor.dims).length) [(1 : Rat), 2] [(0 : Int), 0] :=
  ⟨by decide,
    (quantization_conversion quantTensor [] TensorAttribute.CONSTANT quantSpec (by decide)).2.2
      { scale := [(1 : Rat), 2], zero_point := [(0 : Int), 0], quantized_dimension := 3 }
      rfl (by decide)⟩

/-- Witness for C5 at a boolean constant with permutation [0]. -/
theorem constant_transpose_required_witness :
    ([0] : List Nat) ≠ []
  ∧ TransposeTensorData boolConstTensor [0] = none
  ∧ CreateTensor boolConstTensor TensorAttribute.CONSTANT [0] = some boolConstCreated
  ∧ boolConstCreated.source = boolConstTensor.data :=
  ⟨by decide,
    ((constant_transpose_required boolConstTensor [0] (by decide)).2 (by decide)).1,
    by decide,
    ((constant_transpose_required boolConstTensor [0] (by decide)).2 (by decide)).2
      boolConstCreated (by decide)⟩

/-- Witness for C7 on singleton registries: a custom hit, a builtin hit, and a
double miss with the diagnostic. -/
theorem supported_op_lookup_witness :
    SupportedOp [("vxop", fun (_ : Unit) (_ : Unit) _ => true)]
      [((3 : Int), fun (_ : Unit) (_ : Unit) _ => false)]
      () () { custom_name := some "vxop", builtin_code := 3 } = (true, false)
  ∧ SupportedOp [("vxop", fun (_ : Unit) (_ : Unit) _ => true)]
      [((3 : Int), fun (_ : Unit) (_ : Unit) _ => false)]
      () () { custom_name := none, builtin_code := 3 } = (false, false)
  ∧ SupportedOp [("vxop", fun (_ : Unit) (_ : Unit) _ => true)]
      [((3 : Int), fun (_ : Unit) (_ : Unit) _ => false)]
      () () { custom_name := some "other", builtin_code := 7 } = (false, true) :=
  ⟨(supported_op_lookup [("vxop", fun (_ : Unit) (_ : Unit) _ => true)]
      [((3 : Int), fun (_ : Unit) (_ : Unit) _ => false)]
      () () { custom_name := some "vxop", builtin_code := 3 }).1
      "vxop" (fun _ _ _ => true) rfl rfl,
    (supported_op_lookup [("vxop", fun (_ : Unit) (_ : Unit) _ => true)]
      [((3 : Int), fun (_ : Unit) (_ : Unit) _ => false)]
      () () { custom_name := none, builtin_code := 3 }).2.1
      (fun _ _ _ => false) (Or.inl rfl) rfl,
    (supported_op_lookup [("vxop", fun (_ : Unit) (_ : Unit) _ => true)]
      [((3 : Int), fun (_ : Unit) (_ : Unit) _ => false)]
      () () { custom_name := some "other", builtin_code := 7 }).2.2
      (Or.inr ⟨"other", rfl, rfl⟩) rfl⟩

/-- Witness for C9 at a concrete scalar tensor. -/
theorem scalar_promotion_witness :
    scalarTensor.dims = []
  ∧ CreateTensorSpec scalarTensor [] TensorAttribute.INPUT = some scalarSpec
  ∧ scalarSpec.shape = [1] :=
  ⟨rfl, by decide,
    scalar_promotion scalarTensor TensorAttribute.INPUT scalarSpec rfl (by decide)⟩

/-- Witness for C10 on a 3-slot table: -1 reads the last slot, 1 reads slot 1. -/
theorem map_indexes_wrap_witness :
    1 ≤ ([10, 20, 30] : List Nat).length
  ∧ ([10, 20, 30] : List Nat).length ≤ 2 ^ 32
  ∧ (MapIndexesToTensors 99 [10, 20, 30] [-1, 1]).getD 0 99
      = ([10, 20, 30] : List Nat).getD (([10, 20, 30] : List Nat).length - 1) 99
  ∧ (MapIndexesToTensors 99 [10, 20, 30] [-1, 1]).getD 1 99
      = ([10, 20, 30] : List Nat).getD 1 99 :=
  ⟨by decide, by decide,
    (map_indexes_wrap 99 [10, 20, 30] [-1, 1] (by decide) (by decide)).1 0
      (by decide) (by decide),
    (map_indexes_wrap 99 [10, 20, 30] [-1, 1] (by decide) (by decide)).2 1 1
      (by decide) (by decide) (by decide)⟩

end VxDelegate
